import Mathlib

/-!
Verification of the metadata-analyzer core (`app.py`).

Shallow embedding conventions:
* Python values reaching the analysis core are modelled by `RawTagValue`.
  Python `list` and `tuple` are both modelled by `vseq`, because every
  check in the source tests `isinstance(obj, (list, tuple))` jointly.
  Python `bytes`/`bytearray` are `vbytes` (a list of byte values).
  Python `dict` is `vmap`, an association list (Python dicts have unique
  keys; lookup returns the first match here).
* Python floats are modelled as exact rationals (`Rat`); NaN/inf are not
  representable and are outside this embedding.
* Library objects that are none of the above (e.g. vendor rational types
  such as PIL's IFDRational) are `vratlike`: `floatVal` is what `float(obj)`
  returns (`none` if it raises), the four attribute slots model
  `getattr(obj, "numerator"/"num"/"denominator"/"den", None)` (attribute
  values are modelled as float-convertible numbers, the only shape the
  EXIF libraries produce), and `strRep` is `str(obj)` (total on these
  values; the source's last-resort `except: return None` around `str` is
  an unreachable guard under this model).
* Code that can raise an uncaught exception is modelled in `Except Unit`;
  `try/except` blocks that swallow everything become total functions.
-/

set_option maxRecDepth 8000

namespace MetadataAnalyzer

/-- The value associated with one EXIF tag as produced by the decoding
library (spec §3 RawTagValue). -/
inductive RawTagValue where
  | vnull : RawTagValue
  | vbool : Bool → RawTagValue
  | vint : Int → RawTagValue
  | vfloat : Rat → RawTagValue
  | vstr : String → RawTagValue
  | vbytes : List Nat → RawTagValue
  | vseq : List RawTagValue → RawTagValue
  | vmap : List (RawTagValue × RawTagValue) → RawTagValue
  | vratlike : Option Rat → Option Rat → Option Rat → Option Rat → Option Rat →
      String → RawTagValue

open RawTagValue

/-- Continuation byte test for UTF-8 decoding. -/
def isCont (c : Nat) : Bool := 0x80 ≤ c && c ≤ 0xBF

/-- Valid second-byte range of a three-byte UTF-8 sequence (excludes
overlong encodings and surrogates). -/
def cont3ok (b c : Nat) : Bool :=
  if b = 0xE0 then 0xA0 ≤ c && c ≤ 0xBF
  else if b = 0xED then 0x80 ≤ c && c ≤ 0x9F
  else isCont c

/-- Valid second-byte range of a four-byte UTF-8 sequence. -/
def cont4ok (b c : Nat) : Bool :=
  if b = 0xF0 then 0x90 ≤ c && c ≤ 0xBF
  else if b = 0xF4 then 0x80 ≤ c && c ≤ 0x8F
  else isCont c

/-- UTF-8 decoding with invalid bytes skipped; models Python
`bytes.decode(errors="ignore")`. -/
def utf8DecodeIgnore : List Nat → List Char
  | [] => []
  | b :: rest =>
    if b < 0x80 then Char.ofNat b :: utf8DecodeIgnore rest
    else if 0xC2 ≤ b && b ≤ 0xDF then
      match rest with
      | c :: rest2 =>
        if isCont c then
          Char.ofNat ((b - 0xC0) * 0x40 + (c - 0x80)) :: utf8DecodeIgnore rest2
        else utf8DecodeIgnore (c :: rest2)
      | [] => []
    else if 0xE0 ≤ b && b ≤ 0xEF then
      match rest with
      | c :: d :: rest2 =>
        if cont3ok b c && isCont d then
          Char.ofNat ((b - 0xE0) * 0x1000 + (c - 0x80) * 0x40 + (d - 0x80)) ::
            utf8DecodeIgnore rest2
        else utf8DecodeIgnore (c :: d :: rest2)
      | _ => []
    else if 0xF0 ≤ b && b ≤ 0xF4 then
      match rest with
      | c :: d :: e :: rest2 =>
        if cont4ok b c && isCont d && isCont e then
          Char.ofNat ((b - 0xF0) * 0x40000 + (c - 0x80) * 0x1000 +
              (d - 0x80) * 0x40 + (e - 0x80)) :: utf8DecodeIgnore rest2
        else utf8DecodeIgnore (c :: d :: e :: rest2)
      | _ => []
    else utf8DecodeIgnore rest
termination_by bs => bs.length
decreasing_by all_goals simp +arith [List.length_cons]

/-- `obj.decode(errors="ignore")` on a byte string. -/
def decodeIgnore (bs : List Nat) : String := String.mk (utf8DecodeIgnore bs)

/-- Numeric value of one decimal digit character. -/
def digToNat (c : Char) : Nat := c.toNat - 48

/-- Value of a big-endian list of decimal digit characters. -/
def digitsVal (ds : List Char) : Nat :=
  ds.foldl (fun acc c => acc * 10 + digToNat c) 0

/-- Parse the unsigned mantissa of a Python float literal: digits with an
optional decimal point; at least one digit is required. Returns the value
and the unconsumed rest. -/
def parseUnsigned (cs : List Char) : Option (Rat × List Char) :=
  let p := cs.span Char.isDigit
  match p.2 with
  | '.' :: r2 =>
    let q := r2.span Char.isDigit
    if p.1.isEmpty && q.1.isEmpty then none
    else some ((digitsVal p.1 : Rat) + (digitsVal q.1 : Rat) / (10 : Rat) ^ q.1.length, q.2)
  | _ => if p.1.isEmpty then none else some ((digitsVal p.1 : Rat), p.2)

/-- Parse an optional exponent suffix (`e`/`E`, sign, digits) and apply it;
anything else left over makes the parse fail. -/
def applyExp (m : Rat) (cs : List Char) : Option Rat :=
  match cs with
  | [] => some m
  | e :: r =>
    if e == 'e' || e == 'E' then
      let sr : Bool × List Char :=
        match r with
        | '+' :: t => (false, t)
        | '-' :: t => (true, t)
        | t => (false, t)
      let q := sr.2.span Char.isDigit
      if q.1.isEmpty || !q.2.isEmpty then none
      else
        let k := digitsVal q.1
        some (if sr.1 then m / (10 : Rat) ^ k else m * (10 : Rat) ^ k)
    else none

/-- Models Python `float(s)` on a string: surrounding whitespace, an
optional sign, digits with optional fraction and exponent. (`inf`/`nan`
and digit-group underscores are not modelled; no claim depends on them,
and NaN/inf are outside the `Rat` embedding.) -/
def parseFloatCore (s : String) : Option Rat :=
  let cs := s.toList.dropWhile Char.isWhitespace
  let cs := (cs.reverse.dropWhile Char.isWhitespace).reverse
  let sc : Bool × List Char :=
    match cs with
    | '-' :: t => (true, t)
    | '+' :: t => (false, t)
    | t => (false, t)
  match parseUnsigned sc.2 with
  | none => none
  | some mr =>
    match applyExp mr.1 mr.2 with
    | none => none
    | some v => some (if sc.1 then -v else v)

/-- Models Python `float(obj)`: `none` means the call raises. Strings and
(ASCII) byte strings are parsed as float literals; sequences and mappings
raise `TypeError`; for library objects the result is the `floatVal` slot. -/
def pyFloat : RawTagValue → Option Rat
  | vnull => none
  | vbool b => some (if b then 1 else 0)
  | vint n => some (n : Rat)
  | vfloat q => some q
  | vstr s => parseFloatCore s
  | vbytes bs =>
    if bs.all (· < 0x80) then parseFloatCore (String.mk (bs.map Char.ofNat))
    else none
  | vseq _ => none
  | vmap _ => none
  | vratlike fv _ _ _ _ _ => fv

/-- Models Python's `x or y` over the results of the two `getattr` probes
(line 107/108 of `app.py`): a falsy (zero) or absent first operand yields
the second operand. -/
def pyOr (a b : Option Rat) : Option Rat :=
  match a with
  | some q => if q = 0 then b else some q
  | none => b

/-- Python truthiness of a raw value: `None`, zero numbers, and empty
strings/bytes/sequences/mappings are falsy. A `vratlike` object is falsy
exactly when it is a numeric object equal to zero (modelled through its
`float` value; plain objects are truthy). -/
def pyTruthy : RawTagValue → Bool
  | vnull => false
  | vbool b => b
  | vint n => n != 0
  | vfloat q => q != 0
  | vstr s => s != ""
  | vbytes bs => !bs.isEmpty
  | vseq xs => !xs.isEmpty
  | vmap kvs => !kvs.isEmpty
  | vratlike fv _ _ _ _ _ =>
    match fv with
    | some q => q != 0
    | none => true

/-- Rendering of a float for `str()`; approximates Python's shortest
round-trip repr (no claim depends on the exact text of float rendering). -/
def ratRepr (q : Rat) : String :=
  if q.den = 1 then toString q.num ++ ".0"
  else toString q.num ++ "/" ++ toString q.den

mutual

/-- Models Python `str(obj)`. Exact for `None`, booleans, integers and
strings (the cases the claims exercise); container rendering is
simplified (no repr-quoting of nested strings, bracket style uniform)
and float rendering approximated, with no claim depending on either. -/
def pyStr : RawTagValue → String
  | vnull => "None"
  | vbool b => if b then "True" else "False"
  | vint n => toString n
  | vfloat q => ratRepr q
  | vstr s => s
  | vbytes bs => "b\x27" ++ decodeIgnore bs ++ "\x27"
  | vseq xs => "[" ++ String.intercalate ", " (pyStrList xs) ++ "]"
  | vmap kvs => "\x7b" ++ String.intercalate ", " (pyStrPairs kvs) ++ "\x7d"
  | vratlike _ _ _ _ _ sr => sr

/-- `str` of each element of a sequence. -/
def pyStrList : List RawTagValue → List String
  | [] => []
  | x :: xs => pyStr x :: pyStrList xs

/-- `str` of each `key: value` pair of a mapping. -/
def pyStrPairs : List (RawTagValue × RawTagValue) → List String
  | [] => []
  | (k, v) :: kvs => (pyStr k ++ ": " ++ pyStr v) :: pyStrPairs kvs

end

mutual

/-- `sanitize_for_json` (app.py lines 65-124): recursively convert a raw
tag value into a JSON-serializable value. First matching rule wins:
`None`; simple types unchanged; bytes decoded permissively; dict with
`str`-coerced keys and sanitized values; list/tuple elementwise; then for
remaining (library) objects `float(obj)` with integer collapse, the
numerator/denominator attribute probe, and finally `str(obj)`. -/
def sanitize_for_json : RawTagValue → RawTagValue
  | vnull => vnull
  | vbool b => vbool b
  | vint n => vint n
  | vfloat q => vfloat q
  | vstr s => vstr s
  | vbytes bs => vstr (decodeIgnore bs)
  | vmap kvs => vmap (sanitizePairs kvs)
  | vseq xs => vseq (sanitizeList xs)
  | vratlike fv nuA nuB deA deB sr =>
    match fv with
    | some f => if f.den = 1 then vint f.num else vfloat f
    | none =>
      -- the `or`-chained getattr probe; division errors fall through to str
      match pyOr nuA nuB, pyOr deA deB with
      | some nu, some de =>
        if de = 0 then vstr sr
        else if (nu / de).den = 1 then vint (nu / de).num else vfloat (nu / de)
      | _, _ => vstr sr

/-- Sanitization of each element of a list/tuple (app.py line 93). -/
def sanitizeList : List RawTagValue → List RawTagValue
  | [] => []
  | x :: xs => sanitize_for_json x :: sanitizeList xs

/-- Sanitization of a dict: keys coerced with `str`, values recursively
sanitized (app.py line 89). -/
def sanitizePairs : List (RawTagValue × RawTagValue) → List (RawTagValue × RawTagValue)
  | [] => []
  | (k, v) :: kvs => (vstr (pyStr k), sanitize_for_json v) :: sanitizePairs kvs

end

mutual

/-- The JSON-safe fragment of `RawTagValue` (spec §3 SanitizedValue):
null, booleans, integers, floats, strings, sequences of sanitized values
and string-keyed mappings of sanitized values. -/
def isSanitized : RawTagValue → Bool
  | vnull => true
  | vbool _ => true
  | vint _ => true
  | vfloat _ => true
  | vstr _ => true
  | vbytes _ => false
  | vseq xs => isSanitizedList xs
  | vmap kvs => isSanitizedPairs kvs
  | vratlike _ _ _ _ _ _ => false

/-- Every element sanitized. -/
def isSanitizedList : List RawTagValue → Bool
  | [] => true
  | x :: xs => isSanitized x && isSanitizedList xs

/-- Every key a string and every value sanitized. -/
def isSanitizedPairs : List (RawTagValue × RawTagValue) → Bool
  | [] => true
  | (k, v) :: kvs =>
    (match k with | vstr _ => true | _ => false) && isSanitized v && isSanitizedPairs kvs

end

/-- Round to the nearest integer, ties to even — the rounding used by
Python's `"%.2f"`/`f"{x:.2f}"` formatting. -/
def roundHalfEven (x : Rat) : Int :=
  let f : Int := ⌊x⌋
  let r : Rat := x - (f : Rat)
  if r < 1 / 2 then f
  else if (1 / 2 : Rat) < r then f + 1
  else if f % 2 = 0 then f else f + 1

/-- Left-pad a two-digit fraction field with a zero. -/
def padTwo (n : Nat) : String := if n < 10 then "0" ++ toString n else toString n

/-- Models `f"{x:.2f}"`: the value rounded to two decimal places. -/
def fmt2 (q : Rat) : String :=
  let n := roundHalfEven (q * 100)
  let m := n.natAbs
  (if q < 0 then "-" else "") ++ toString (m / 100) ++ "." ++ padTwo (m % 100)

/-- The unit ladder walked by `format_size` before saturating at PB. -/
def sizeUnits : List String := ["B", "KB", "MB", "GB", "TB"]

/-- The loop of `format_size`: emit at the first unit where the magnitude
is below 1024, else divide by 1024 and move to the next unit; after the
last unit, saturate at PB. -/
def formatSizeGo (size : Rat) : List String → String
  | [] => fmt2 size ++ " PB"
  | u :: us => if size < 1024 then fmt2 size ++ " " ++ u else formatSizeGo (size / 1024) us

/-- `format_size` (app.py lines 20-27). -/
def format_size (bytes_size : Int) : String :=
  formatSizeGo (bytes_size : Rat) sizeUnits

/-- `_to_float_rational` (app.py lines 128-146): `float(r)` if that works;
else a 2-element sequence is `float(r[0]) / float(r[1])`; else the
numerator/denominator attribute probe. `none` covers both the final
`raise ValueError` and any exception escaping the unguarded conversions
(the callers do not distinguish the two). -/
def to_float_rational (r : RawTagValue) : Option Rat :=
  match pyFloat r with
  | some f => some f
  | none =>
    match r with
    | vseq [a, b] =>
      match pyFloat a, pyFloat b with
      | some x, some y => if y = 0 then none else some (x / y)
      | _, _ => none
    | other =>
      match other with
      | vratlike _ nuA nuB deA deB _ =>
        match pyOr nuA nuB, pyOr deA deB with
        | some nu, some de => if de = 0 then none else some (nu / de)
        | _, _ => none
      | _ => none

/-- `_convert_to_degrees` (app.py lines 149-164): a 3-element sequence is
`d + m/60 + s/3600`; anything else is converted directly; every failure
is caught and becomes `none`. -/
def convert_to_degrees (v : RawTagValue) : Option Rat :=
  match v with
  | vseq [a, b, c] =>
    match to_float_rational a with
    | none => none
    | some d =>
      match to_float_rational b with
      | none => none
      | some m =>
        match to_float_rational c with
        | none => none
        | some s => some (d + m / 60 + s / 3600)
  | x => to_float_rational x

/-- Modelled from the spec: the static EXIF tag-name table supplied by the
external metadata-parsing library (`PIL.ExifTags.TAGS`, spec §4.1 "backed
by a static table ... supplied by an external metadata-parsing library");
a representative subset of the real table is embedded. -/
def TAGS : List (Int × String) :=
  [(256, "ImageWidth"), (257, "ImageLength"), (271, "Make"), (272, "Model"),
   (274, "Orientation"), (305, "Software"), (306, "DateTime"),
   (34853, "GPSInfo"), (36867, "DateTimeOriginal"), (36868, "DateTimeDigitized"),
   (42032, "CameraOwnerName")]

/-- Modelled from the spec: the static GPS sub-tag-name table supplied by
the external library (`PIL.ExifTags.GPSTAGS`); representative subset. -/
def GPSTAGS : List (Int × String) :=
  [(0, "GPSVersionID"), (1, "GPSLatitudeRef"), (2, "GPSLatitude"),
   (3, "GPSLongitudeRef"), (4, "GPSLongitude"), (5, "GPSAltitudeRef"),
   (6, "GPSAltitude"), (7, "GPSTimeStamp")]

/-- EXIF tag resolution, `TAGS.get(tag_id, str(tag_id))` (app.py line 59):
the canonical name when known, else the stringified numeric ID. -/
def resolveExifTag (tagId : Int) : String :=
  match TAGS.lookup tagId with
  | some s => s
  | none => toString tagId

/-- GPS sub-tag resolution, `GPSTAGS.get(key, key)` (app.py line 175): the
canonical name when known, else the key itself (NOT stringified). -/
def resolveGpsTag (k : RawTagValue) : RawTagValue :=
  match k with
  | vint n =>
    match GPSTAGS.lookup n with
    | some s => vstr s
    | none => k
  | _ => k

/-- Python dict `.get` on the (string-keyed) resolved EXIF mapping. -/
def lookupStr (l : List (String × RawTagValue)) (k : String) : Option RawTagValue :=
  (l.find? (fun kv => kv.1 == k)).map (fun kv => kv.2)

/-- Python `stringKey == key` for a GPS raw-dict key: true exactly when the
key is that string. -/
def keyIsStr : RawTagValue → String → Bool
  | vstr t, k => t == k
  | _, _ => false

/-- Python dict `.get(k)` on the GPS raw dict, whose keys are resolved
sub-tag keys (strings or raw IDs). -/
def rawGet (l : List (RawTagValue × RawTagValue)) (k : String) : Option RawTagValue :=
  (l.find? (fun kv => keyIsStr kv.1 k)).map (fun kv => kv.2)

/-- Ref normalization (app.py lines 184-193): a bytes ref is decoded
permissively; anything else passes through. -/
def normalizeRef : Option RawTagValue → Option RawTagValue
  | some (vbytes bs) => some (vstr (decodeIgnore bs))
  | x => x

/-- Models `s.upper().startswith(letter)`: the first character, uppercased,
equals the letter. (Python's full-Unicode `upper` is modelled by the
ASCII `Char.toUpper`; the hemisphere refs are ASCII.) -/
def upperStartsWith (s : String) (letter : Char) : Bool :=
  match s.toList.map Char.toUpper with
  | [] => false
  | c :: _ => c == letter

/-- The ref test guarding negation (app.py lines 197, 202):
`lat_ref and str(lat_ref).upper().startswith(letter)`. -/
def refMatches (r : Option RawTagValue) (letter : Char) : Bool :=
  match r with
  | some rv => pyTruthy rv && upperStartsWith (pyStr rv) letter
  | none => false

/-- The per-coordinate decode of `get_gps_info`: convert, then negate when
the ref test fires. -/
def coordOf (l : List (RawTagValue × RawTagValue)) (key : String)
    (ref : Option RawTagValue) (letter : Char) : Option Rat :=
  match rawGet l key with
  | none => none
  | some lv =>
    match convert_to_degrees lv with
    | none => none
    | some q => if refMatches ref letter then some (-q) else some q

/-- GpsReport (spec §3): the sanitized raw GPS sub-tag mapping and the
optional signed decimal coordinates. -/
structure GpsReport where
  raw : List (RawTagValue × RawTagValue)
  latitude : Option Rat
  longitude : Option Rat

/-- `get_gps_info` (app.py lines 167-212). A falsy/absent `GPSInfo` yields
no report; a truthy non-dict `GPSInfo` raises (`.items()` fails), which
the caller surfaces as a request-level error. -/
def get_gps_info (exif_data : List (String × RawTagValue)) : Except Unit (Option GpsReport) :=
  match lookupStr exif_data "GPSInfo" with
  | none => Except.ok none
  | some g =>
    if !pyTruthy g then Except.ok none
    else
      match g with
      | vmap kvs =>
        let raw := kvs.map (fun kv => (resolveGpsTag kv.1, kv.2))
        let latRef := normalizeRef (rawGet raw "GPSLatitudeRef")
        let lonRef := normalizeRef (rawGet raw "GPSLongitudeRef")
        Except.ok (some
          { raw := raw.map (fun kv => (kv.1, sanitize_for_json kv.2)),
            latitude := coordOf raw "GPSLatitude" latRef 'S',
            longitude := coordOf raw "GPSLongitude" lonRef 'W' })
      | _ => Except.error ()

/-- The fixed sensitive-tag name set (app.py lines 216-229). -/
def SENSITIVE_TAGS : List String :=
  ["GPSInfo", "GPSLatitude", "GPSLongitude", "GPSLatitudeRef", "GPSLongitudeRef",
   "DateTime", "DateTimeOriginal", "DateTimeDigitized", "Model", "Make",
   "OwnerName", "Software"]

/-- The display truncation step (app.py lines 313-315): a string longer
than 200 characters is cut to its 200-character head (`value_str[:200]`)
and marked with the literal suffix. -/
def truncateValue (s : String) : String :=
  if 200 < s.length then String.mk (s.toList.take 200) ++ "... (truncated)" else s

/-- The display-value pipeline of the assembly loop (app.py lines 291-313):
bytes decoded permissively, lists/tuples sanitized, anything not a simple
type cast with `str`, and finally `str` of the result. The guarded
`except` branches (for the total `decode`/`sanitize`/`str` of this model)
are unreachable. -/
def displayString (v : RawTagValue) : String :=
  let dv1 := match v with
    | RawTagValue.vbytes bs => RawTagValue.vstr (decodeIgnore bs)
    | x => x
  let dv2 := match dv1 with
    | RawTagValue.vseq xs => sanitize_for_json (RawTagValue.vseq xs)
    | x => x
  let dv3 := match dv2 with
    | RawTagValue.vstr s => RawTagValue.vstr s
    | RawTagValue.vint n => RawTagValue.vint n
    | RawTagValue.vfloat q => RawTagValue.vfloat q
    | RawTagValue.vbool b => RawTagValue.vbool b
    | RawTagValue.vnull => RawTagValue.vnull
    | x => RawTagValue.vstr (pyStr x)
  pyStr dv3

/-- ExifTagEntry (spec §3): tag name, truncated display value,
sensitivity flag. -/
structure ExifEntry where
  tag : String
  value : String
  is_sensitive : Bool
deriving DecidableEq

/-- One entry of the per-tag display list (app.py lines 313-330). -/
def mkExifEntry (tag : String) (v : RawTagValue) : ExifEntry :=
  { tag := tag, value := truncateValue (displayString v),
    is_sensitive := SENSITIVE_TAGS.contains tag }

/-- `get_exif_data` (app.py lines 43-61): the extraction result of
`img._getexif()` (which may raise, return `None`, or return a numeric-ID
dict) becomes a readable-name dict; every failure or falsy result becomes
the empty dict. -/
def get_exif_data (r : Except Unit (Option (List (Int × RawTagValue)))) :
    List (String × RawTagValue) :=
  let exifRaw : Option (List (Int × RawTagValue)) :=
    match r with
    | Except.error _ => none
    | Except.ok o => o
  match exifRaw with
  | none => []
  | some kvs =>
    if kvs.isEmpty then []
    else kvs.map (fun kv => (resolveExifTag kv.1, kv.2))

/-- The JSON response body of `/analyze` (basic_info, which comes from the
excluded file/image layer, is not modelled; no claim mentions it). -/
structure AnalysisReport where
  success : Bool
  exif : List ExifEntry
  gps : Option GpsReport
  has_gps : Bool
  has_datetime : Bool
  has_camera_model : Bool
  message : String

/-- The datetime-family tag names (app.py line 319). -/
def datetimeTags : List String := ["DateTime", "DateTimeOriginal", "DateTimeDigitized"]

/-- The camera-model-family tag names (app.py line 321). -/
def cameraTags : List String := ["Model", "Make"]

/-- The assembly of the response from the resolved EXIF mapping (app.py
lines 268-349): the empty-metadata short-circuit, the GPS block, the
display list, the privacy flags, and the status message. The loop-carried
`has_datetime`/`has_camera_model` booleans are the `any` of the family
membership tests. -/
def analyzeFrom (exif_data : List (String × RawTagValue)) : Except Unit AnalysisReport :=
  if exif_data.isEmpty then
    Except.ok
      { success := true, exif := [], gps := none, has_gps := false,
        has_datetime := false, has_camera_model := false,
        message := "No EXIF metadata found in this image." }
  else
    match get_gps_info exif_data with
    | Except.error e => Except.error e
    | Except.ok gps =>
      Except.ok
        { success := true,
          exif := exif_data.map (fun kv => mkExifEntry kv.1 kv.2),
          gps := gps,
          has_gps :=
            match gps with
            | some g => g.latitude.isSome && g.longitude.isSome
            | none => false,
          has_datetime := exif_data.any (fun kv => datetimeTags.contains kv.1),
          has_camera_model := exif_data.any (fun kv => cameraTags.contains kv.1),
          message := "Metadata analyzed successfully." }

/-- The analysis pipeline from the raw extraction result to the response. -/
def analyze (r : Except Unit (Option (List (Int × RawTagValue)))) :
    Except Unit AnalysisReport :=
  analyzeFrom (get_exif_data r)

/-- Test fixture for the GPS sign claims: an EXIF mapping whose GPSInfo
block holds an optional latitude ref (sub-tag ID 1) and a latitude value
(sub-tag ID 2). -/
def gpsExifLat (ref : Option String) (v : RawTagValue) : List (String × RawTagValue) :=
  [("GPSInfo", RawTagValue.vmap ((match ref with
      | some rs => [(RawTagValue.vint 1, RawTagValue.vstr rs)]
      | none => []) ++ [(RawTagValue.vint 2, v)]))]

/-- Test fixture: GPSInfo block with an optional longitude ref (sub-tag
ID 3) and a longitude value (sub-tag ID 4). -/
def gpsExifLon (ref : Option String) (v : RawTagValue) : List (String × RawTagValue) :=
  [("GPSInfo", RawTagValue.vmap ((match ref with
      | some rs => [(RawTagValue.vint 3, RawTagValue.vstr rs)]
      | none => []) ++ [(RawTagValue.vint 4, v)]))]

/-- The first character of an optional hemisphere ref, uppercased — the
spec-side formulation of the negation trigger. -/
def refFirstUpper (ref : Option String) : Option Char :=
  ref.bind (fun rs => rs.toList.head?.map Char.toUpper)

/-- The three mutually recursive sanitizers land in the JSON-safe
fragment; proved by strong induction on the size of the value. -/
theorem sanitizeAux : ∀ n : Nat,
    (∀ v : RawTagValue, sizeOf v ≤ n → isSanitized (sanitize_for_json v) = true) ∧
    (∀ xs : List RawTagValue, sizeOf xs ≤ n → isSanitizedList (sanitizeList xs) = true) ∧
    (∀ kvs : List (RawTagValue × RawTagValue), sizeOf kvs ≤ n →
      isSanitizedPairs (sanitizePairs kvs) = true) := by
  intro n
  induction n using Nat.strong_induction_on with
  | _ n ih =>
    refine ⟨?_, ?_, ?_⟩
    · intro v hv
      cases v with
      | vseq xs =>
        have hxs : sizeOf xs < n := by simp at hv; omega
        simpa [sanitize_for_json, isSanitized] using (ih _ hxs).2.1 xs le_rfl
      | vmap kvs =>
        have hkvs : sizeOf kvs < n := by simp at hv; omega
        simpa [sanitize_for_json, isSanitized] using (ih _ hkvs).2.2 kvs le_rfl
      | vratlike fv nuA nuB deA deB sr =>
        simp only [sanitize_for_json]
        repeat' split
        all_goals simp [isSanitized]
      | _ => simp [sanitize_for_json, isSanitized]
    · intro xs hxs
      cases xs with
      | nil => simp [sanitizeList, isSanitizedList]
      | cons x t =>
        have hx : sizeOf x < n := by simp at hxs; omega
        have ht : sizeOf t < n := by simp at hxs; omega
        simp only [sanitizeList, isSanitizedList, Bool.and_eq_true]
        exact ⟨(ih _ hx).1 x le_rfl, (ih _ ht).2.1 t le_rfl⟩
    · intro kvs hkvs
      cases kvs with
      | nil => simp [sanitizePairs, isSanitizedPairs]
      | cons kv t =>
        obtain ⟨k, v⟩ := kv
        have hv : sizeOf v < n := by simp at hkvs; omega
        have ht : sizeOf t < n := by simp at hkvs; omega
        simp only [sanitizePairs, isSanitizedPairs, Bool.and_eq_true]
        exact ⟨⟨trivial, (ih _ hv).1 v le_rfl⟩, (ih _ ht).2.2 t le_rfl⟩

/-- On values already in the JSON-safe fragment the three sanitizers are
the identity; strong induction on size. -/
theorem sanitizeFixAux : ∀ n : Nat,
    (∀ v : RawTagValue, sizeOf v ≤ n → isSanitized v = true → sanitize_for_json v = v) ∧
    (∀ xs : List RawTagValue, sizeOf xs ≤ n → isSanitizedList xs = true →
      sanitizeList xs = xs) ∧
    (∀ kvs : List (RawTagValue × RawTagValue), sizeOf kvs ≤ n →
      isSanitizedPairs kvs = true → sanitizePairs kvs = kvs) := by
  intro n
  induction n using Nat.strong_induction_on with
  | _ n ih =>
    refine ⟨?_, ?_, ?_⟩
    · intro v hv hs
      cases v with
      | vseq xs =>
        have hxs : sizeOf xs < n := by simp at hv; omega
        have := (ih _ hxs).2.1 xs le_rfl (by simpa [isSanitized] using hs)
        simp [sanitize_for_json, this]
      | vmap kvs =>
        have hkvs : sizeOf kvs < n := by simp at hv; omega
        have := (ih _ hkvs).2.2 kvs le_rfl (by simpa [isSanitized] using hs)
        simp [sanitize_for_json, this]
      | vbytes bs => simp [isSanitized] at hs
      | vratlike fv nuA nuB deA deB sr => simp [isSanitized] at hs
      | _ => simp [sanitize_for_json]
    · intro xs hxs hs
      cases xs with
      | nil => simp [sanitizeList]
      | cons x t =>
        have hx : sizeOf x < n := by simp at hxs; omega
        have ht : sizeOf t < n := by simp at hxs; omega
        simp only [isSanitizedList, Bool.and_eq_true] at hs
        simp only [sanitizeList]
        exact congrArg₂ List.cons ((ih _ hx).1 x le_rfl hs.1) ((ih _ ht).2.1 t le_rfl hs.2)
    · intro kvs hkvs hs
      cases kvs with
      | nil => simp [sanitizePairs]
      | cons kv t =>
        obtain ⟨k, v⟩ := kv
        have hv : sizeOf v < n := by simp at hkvs; omega
        have ht : sizeOf t < n := by simp at hkvs; omega
        simp only [isSanitizedPairs, Bool.and_eq_true] at hs
        obtain ⟨⟨hk, hsv⟩, hst⟩ := hs
        cases k with
        | vstr s =>
          simp only [sanitizePairs, pyStr]
          rw [(ih _ hv).1 v le_rfl hsv, (ih _ ht).2.2 t le_rfl hst]
        | _ => simp at hk

/-- C1: for every raw tag value, of any of the RawTagValue kinds
(including malformed rationals, rationals with zero denominator, bytes,
and arbitrarily nested sequences and mappings), `sanitize_for_json`
returns a sanitized value — null, bool, int, float, string, list, or
string-keyed mapping — and (being a total function of this model, every
internal failure handled) never raises an exception. -/
theorem C1_sanitize_total (v : RawTagValue) :
    isSanitized (sanitize_for_json v) = true :=
  (sanitizeAux (sizeOf v)).1 v le_rfl

/-- C7: the sanitizer is idempotent — on every value in the image of
`sanitize_for_json`, applying `sanitize_for_json` again returns it
unchanged. -/
theorem C7_sanitize_idempotent (v : RawTagValue) :
    sanitize_for_json (sanitize_for_json v) = sanitize_for_json v :=
  (sanitizeFixAux (sizeOf (sanitize_for_json v))).1 (sanitize_for_json v) le_rfl
    ((sanitizeAux (sizeOf v)).1 v le_rfl)

/-- C3: inputs to the GPS degree conversion that cannot be converted
yield `none` — and, the conversion being total in this model (every
internal exception is caught at lines 163-164), it never raises. Covered
failure families: any 1-element sequence (malformed shape), a
duck-typed rational whose denominator attribute is zero, a 2-element
sequence with zero denominator, a non-numeric string, and a 3-element
sequence whose first element is non-numeric. -/
theorem C3_gps_conversion_failure_yields_none :
    (∀ a : RawTagValue, convert_to_degrees (RawTagValue.vseq [a]) = none) ∧
    (∀ (p : Rat) (sr : String),
      convert_to_degrees (RawTagValue.vratlike none (some p) none (some 0) none sr) = none) ∧
    (∀ x : RawTagValue, convert_to_degrees (RawTagValue.vseq [x, RawTagValue.vint 0]) = none) ∧
    convert_to_degrees (RawTagValue.vstr "abc") = none ∧
    (∀ b c : RawTagValue,
      convert_to_degrees (RawTagValue.vseq [RawTagValue.vstr "abc", b, c]) = none) := by
  have habc : to_float_rational (RawTagValue.vstr "abc") = none := by decide
  refine ⟨?_, ?_, ?_, ?_, ?_⟩
  · intro a; rfl
  · intro p sr
    by_cases hp : p = 0 <;>
      simp [convert_to_degrees, to_float_rational, pyFloat, pyOr, hp]
  · intro x
    have hseq : pyFloat (RawTagValue.vseq [x, RawTagValue.vint 0]) = none := rfl
    have h0 : pyFloat (RawTagValue.vint 0) = some 0 := rfl
    cases hx : pyFloat x <;>
      simp [convert_to_degrees, to_float_rational, hseq, h0, hx]
  · decide
  · intro b c; simp [convert_to_degrees, habc]

/-- C6: the display truncation: a string longer than 200 characters
becomes its 200-character head plus the literal suffix
`"... (truncated)"` (and then always has 215 characters); a string of at
most 200 characters is left untouched. -/
theorem C6_display_truncation (s : String) :
    (200 < s.length →
      truncateValue s = String.mk (s.toList.take 200) ++ "... (truncated)" ∧
        (truncateValue s).length = 215) ∧
    (s.length ≤ 200 → truncateValue s = s) := by
  constructor
  · intro h
    have he : truncateValue s = String.mk (s.toList.take 200) ++ "... (truncated)" := by
      simp [truncateValue, h]
    refine ⟨he, ?_⟩
    rw [he, String.length_append]
    have hd : s.toList.length = s.length := rfl
    have h1 : (String.mk (s.toList.take 200)).length = (s.toList.take 200).length := rfl
    have h2 : ("... (truncated)" : String).length = 15 := rfl
    rw [h1, h2, List.length_take, hd]
    omega
  · intro h
    simp [truncateValue, Nat.not_lt.2 h]

/-- Witness for C6 at a 250-character string and a short string. -/
theorem C6_display_truncation_witness :
    truncateValue (String.mk (List.replicate 250 'a')) =
      String.mk (List.replicate 200 'a') ++ "... (truncated)" ∧
    truncateValue "ok" = "ok" := by
  constructor
  · have h := (C6_display_truncation (String.mk (List.replicate 250 'a'))).1
      (by decide)
    rw [h.1]
    simp [String.toList, List.take_replicate]
  · exact (C6_display_truncation "ok").2 (by decide)

/-- C8 fails on the code: a duck-typed rational whose `numerator`
attribute is `0` (and which has no fallback `num` attribute) is NOT
converted to the integer `0 = 0/2`; because Python's
`getattr(obj, "numerator", None) or getattr(obj, "num", None)` treats the
falsy `0` like `None`, the probe misses and the value falls through to
the string fallback. -/
theorem C8_zero_numerator_counterexample :
    sanitize_for_json
        (RawTagValue.vratlike none (some 0) none (some 2) none "Frac(0, 2)") =
      RawTagValue.vstr "Frac(0, 2)" ∧
    sanitize_for_json
        (RawTagValue.vratlike none (some 0) none (some 2) none "Frac(0, 2)") ≠
      RawTagValue.vint 0 := by
  have h1 : sanitize_for_json
      (RawTagValue.vratlike none (some 0) none (some 2) none "Frac(0, 2)") =
      RawTagValue.vstr "Frac(0, 2)" := by
    simp only [sanitize_for_json]; rfl
  refine ⟨h1, ?_⟩
  rw [h1]
  exact fun h => RawTagValue.noConfusion h

/-- C8 as amended: for a value matching none of sanitization steps 1-6
that exposes the attribute pair through the `or`-chained probe with both
results non-`None` and the denominator nonzero, `sanitize_for_json`
returns numerator/denominator as a float collapsed to an integer when the
quotient is integral; but a pair whose numerator is 0 (no fallback `num`
attribute) and likewise a zero denominator fall through to the string
fallback. -/
theorem C8_duck_typed_rational (nu de : Rat) (sr : String)
    (hnu : nu ≠ 0) (hde : de ≠ 0) :
    sanitize_for_json (RawTagValue.vratlike none (some nu) none (some de) none sr) =
      (if (nu / de).den = 1 then RawTagValue.vint (nu / de).num
       else RawTagValue.vfloat (nu / de)) ∧
    sanitize_for_json (RawTagValue.vratlike none (some 0) none (some de) none sr) =
      RawTagValue.vstr sr ∧
    sanitize_for_json (RawTagValue.vratlike none (some nu) none (some 0) none sr) =
      RawTagValue.vstr sr := by
  refine ⟨?_, ?_, ?_⟩ <;>
    (simp only [sanitize_for_json]; simp [pyOr, hnu, hde])

/-- Witness for C8 at the rationals 3/2 (stays a float) and with
zero numerator/denominator slots. -/
theorem C8_duck_typed_rational_witness :
    sanitize_for_json
        (RawTagValue.vratlike none (some 3) none (some 2) none "Frac(3, 2)") =
      (if ((3 : Rat) / 2).den = 1 then RawTagValue.vint ((3 : Rat) / 2).num
       else RawTagValue.vfloat ((3 : Rat) / 2)) ∧
    sanitize_for_json
        (RawTagValue.vratlike none (some 0) none (some 2) none "Frac(3, 2)") =
      RawTagValue.vstr "Frac(3, 2)" ∧
    sanitize_for_json
        (RawTagValue.vratlike none (some 3) none (some 0) none "Frac(3, 2)") =
      RawTagValue.vstr "Frac(3, 2)" :=
  C8_duck_typed_rational 3 2 "Frac(3, 2)" (by norm_num) (by norm_num)

/-- C9 fails on the code for the GPS variant: `GPSTAGS.get(key, key)`
(app.py line 175) falls back to the key ITSELF, not its stringification;
for the unknown GPS sub-tag ID 999 the resolver returns the integer 999,
which is not the string `"999"`. -/
theorem C9_gps_resolver_counterexample :
    GPSTAGS.lookup (999 : Int) = none ∧
    resolveGpsTag (RawTagValue.vint 999) = RawTagValue.vint 999 ∧
    resolveGpsTag (RawTagValue.vint 999) ≠ RawTagValue.vstr (toString (999 : Int)) := by
  refine ⟨by decide, rfl, ?_⟩
  exact fun h => RawTagValue.noConfusion h

/-- C9 as amended: tag resolution is total and pure; the EXIF variant
returns the canonical name for known IDs and the stringified ID for
unknown ones, while the GPS variant returns the canonical name for known
IDs and the key itself — unstringified — for unknown ones. -/
theorem C9_tag_resolution (i n : Int) (s t : String) :
    (TAGS.lookup i = none → resolveExifTag i = toString i) ∧
    (TAGS.lookup i = some s → resolveExifTag i = s) ∧
    (GPSTAGS.lookup n = none → resolveGpsTag (RawTagValue.vint n) = RawTagValue.vint n) ∧
    (GPSTAGS.lookup n = some t → resolveGpsTag (RawTagValue.vint n) = RawTagValue.vstr t) := by
  refine ⟨fun h => ?_, fun h => ?_, fun h => ?_, fun h => ?_⟩ <;>
    simp [resolveExifTag, resolveGpsTag, h]

/-- Witness for C9 at an unknown EXIF ID, a known EXIF ID, an unknown GPS
ID and a known GPS ID. -/
theorem C9_tag_resolution_witness :
    resolveExifTag 59999 = toString (59999 : Int) ∧
    resolveExifTag 272 = "Model" ∧
    resolveGpsTag (RawTagValue.vint 999) = RawTagValue.vint 999 ∧
    resolveGpsTag (RawTagValue.vint 2) = RawTagValue.vstr "GPSLatitude" :=
  ⟨(C9_tag_resolution 59999 999 "" "").1 (by decide),
   (C9_tag_resolution 272 999 "Model" "").2.1 (by decide),
   (C9_tag_resolution 0 999 "" "").2.2.1 (by decide),
   (C9_tag_resolution 0 2 "" "GPSLatitude").2.2.2 (by decide)⟩

/-- C10: when EXIF extraction raises, or yields an absent or empty tag
mapping, `get_exif_data` returns the empty mapping and the endpoint still
succeeds with the no-metadata response: `success = true`, `exif = []`,
`gps = null`, all three privacy flags false, and the no-metadata message
— never a request-level error. -/
theorem C10_extraction_failure_still_succeeds :
    get_exif_data (Except.error ()) = [] ∧
    get_exif_data (Except.ok none) = [] ∧
    get_exif_data (Except.ok (some [])) = [] ∧
    ∀ r, get_exif_data r = [] →
      analyze r = Except.ok
        { success := true, exif := [], gps := none, has_gps := false,
          has_datetime := false, has_camera_model := false,
          message := "No EXIF metadata found in this image." } := by
  refine ⟨rfl, rfl, rfl, fun r h => ?_⟩
  simp [analyze, analyzeFrom, h]

/-- Witness for C10 at an extraction that raised. -/
theorem C10_extraction_failure_witness :
    analyze (Except.error ()) = Except.ok
      { success := true, exif := [], gps := none, has_gps := false,
        has_datetime := false, has_camera_model := false,
        message := "No EXIF metadata found in this image." } :=
  C10_extraction_failure_still_succeeds.2.2.2 (Except.error ()) rfl



/-- `"%.2f"` rounding is the identity on integer-valued arguments. -/
theorem roundHalfEven_intCast (k : Int) : roundHalfEven ((k : Rat)) = k := by
  unfold roundHalfEven
  rw [Int.floor_intCast]
  norm_num

/-- Evaluation of `fmt2` at a nonnegative value whose hundredfold is the
integer `k`. -/
theorem fmt2_cast_eval (q : Rat) (k : Int) (hq : ¬ q < 0) (h : q * 100 = (k : Rat)) :
    fmt2 q = toString (k.natAbs / 100) ++ "." ++ padTwo (k.natAbs % 100) := by
  unfold fmt2
  rw [h, roundHalfEven_intCast]
  simp [hq]

/-- The unit ladder of `format_size`. -/
theorem format_size_ladder (n : Int) :
    ((n : Rat) < 1024 → format_size n = fmt2 (n : Rat) ++ " B") ∧
    (1024 ≤ (n : Rat) → (n : Rat) < 1024 ^ 2 →
      format_size n = fmt2 ((n : Rat) / 1024) ++ " KB") ∧
    (1024 ^ 2 ≤ (n : Rat) → (n : Rat) < 1024 ^ 3 →
      format_size n = fmt2 ((n : Rat) / 1024 ^ 2) ++ " MB") ∧
    (1024 ^ 3 ≤ (n : Rat) → (n : Rat) < 1024 ^ 4 →
      format_size n = fmt2 ((n : Rat) / 1024 ^ 3) ++ " GB") ∧
    (1024 ^ 4 ≤ (n : Rat) → (n : Rat) < 1024 ^ 5 →
      format_size n = fmt2 ((n : Rat) / 1024 ^ 4) ++ " TB") ∧
    (1024 ^ 5 ≤ (n : Rat) → format_size n = fmt2 ((n : Rat) / 1024 ^ 5) ++ " PB") := by
  have hpos : (0 : Rat) < 1024 := by norm_num
  set x : Rat := (n : Rat) with hx
  have b1 : x / 1024 < 1024 ↔ x < 1024 ^ 2 := by
    rw [div_lt_iff₀ hpos]
    constructor <;> intro hh <;> nlinarith
  have b2 : x / 1024 / 1024 < 1024 ↔ x < 1024 ^ 3 := by
    rw [div_div, div_lt_iff₀ (by positivity)]
    constructor <;> intro hh <;> nlinarith
  have b3 : x / 1024 / 1024 / 1024 < 1024 ↔ x < 1024 ^ 4 := by
    rw [div_div, div_div, div_lt_iff₀ (by positivity)]
    constructor <;> intro hh <;> nlinarith
  have b4 : x / 1024 / 1024 / 1024 / 1024 < 1024 ↔ x < 1024 ^ 5 := by
    rw [div_div, div_div, div_div, div_lt_iff₀ (by positivity)]
    constructor <;> intro hh <;> nlinarith
  have e2 : x / 1024 / 1024 = x / 1024 ^ 2 := by ring
  have e3 : x / 1024 / 1024 / 1024 = x / 1024 ^ 3 := by ring
  have e4 : x / 1024 / 1024 / 1024 / 1024 = x / 1024 ^ 4 := by ring
  have e5 : x / 1024 / 1024 / 1024 / 1024 / 1024 = x / 1024 ^ 5 := by ring
  refine ⟨?_, ?_, ?_, ?_, ?_, ?_⟩
  · intro h1
    simp [format_size, sizeUnits, formatSizeGo, ← hx, h1]
    rw [String.append_assoc]; rfl
  · intro h1 h2
    have g1 : ¬ x < 1024 := not_lt.2 h1
    have g2 : x / 1024 < 1024 := b1.2 h2
    simp [format_size, sizeUnits, formatSizeGo, ← hx, g1, g2]
    rw [String.append_assoc]; rfl
  · intro h1 h2
    have g1 : ¬ x < 1024 := not_lt.2 (by nlinarith)
    have g2 : ¬ x / 1024 < 1024 := by rw [b1]; exact not_lt.2 (by nlinarith)
    have g3 : x / 1024 / 1024 < 1024 := b2.2 h2
    simp [format_size, sizeUnits, formatSizeGo, ← hx, g1, g2, g3]
    rw [e2, String.append_assoc]; rfl
  · intro h1 h2
    have g1 : ¬ x < 1024 := not_lt.2 (by nlinarith)
    have g2 : ¬ x / 1024 < 1024 := by rw [b1]; exact not_lt.2 (by nlinarith)
    have g3 : ¬ x / 1024 / 1024 < 1024 := by rw [b2]; exact not_lt.2 (by nlinarith)
    have g4 : x / 1024 / 1024 / 1024 < 1024 := b3.2 h2
    simp [format_size, sizeUnits, formatSizeGo, ← hx, g1, g2, g3, g4]
    rw [e3, String.append_assoc]; rfl
  · intro h1 h2
    have g1 : ¬ x < 1024 := not_lt.2 (by nlinarith)
    have g2 : ¬ x / 1024 < 1024 := by rw [b1]; exact not_lt.2 (by nlinarith)
    have g3 : ¬ x / 1024 / 1024 < 1024 := by rw [b2]; exact not_lt.2 (by nlinarith)
    have g4 : ¬ x / 1024 / 1024 / 1024 < 1024 := by rw [b3]; exact not_lt.2 (by nlinarith)
    have g5 : x / 1024 / 1024 / 1024 / 1024 < 1024 := b4.2 h2
    simp [format_size, sizeUnits, formatSizeGo, ← hx, g1, g2, g3, g4, g5]
    rw [e4, String.append_assoc]; rfl
  · intro h1
    have g1 : ¬ x < 1024 := not_lt.2 (by nlinarith)
    have g2 : ¬ x / 1024 < 1024 := by rw [b1]; exact not_lt.2 (by nlinarith)
    have g3 : ¬ x / 1024 / 1024 < 1024 := by rw [b2]; exact not_lt.2 (by nlinarith)
    have g4 : ¬ x / 1024 / 1024 / 1024 < 1024 := by rw [b3]; exact not_lt.2 (by nlinarith)
    have g5 : ¬ x / 1024 / 1024 / 1024 / 1024 < 1024 := by
      rw [b4]; exact not_lt.2 (by nlinarith)
    simp [format_size, sizeUnits, formatSizeGo, ← hx, g1, g2, g3, g4, g5]
    rw [e5]

/-- C5: `format_size` walks the binary unit ladder B/KB/MB/GB/TB/PB,
dividing by 1024 at each step, formats with two decimal places, stops at
the first unit where the magnitude is below 1024 and saturates at PB; in
particular `format_size 0 = "0.00 B"`, `format_size 1023 = "1023.00 B"`,
`format_size 1024 = "1.00 KB"`, `format_size 1536 = "1.50 KB"` and
`format_size (1024 ^ 4) = "1.00 TB"`. -/
theorem C5_format_size :
    format_size 0 = "0.00 B" ∧ format_size 1023 = "1023.00 B" ∧
    format_size 1024 = "1.00 KB" ∧ format_size 1536 = "1.50 KB" ∧
    format_size (1024 ^ 4) = "1.00 TB" ∧
    ∀ n : Int,
      ((n : Rat) < 1024 → format_size n = fmt2 (n : Rat) ++ " B") ∧
      (1024 ≤ (n : Rat) → (n : Rat) < 1024 ^ 2 →
        format_size n = fmt2 ((n : Rat) / 1024) ++ " KB") ∧
      (1024 ^ 2 ≤ (n : Rat) → (n : Rat) < 1024 ^ 3 →
        format_size n = fmt2 ((n : Rat) / 1024 ^ 2) ++ " MB") ∧
      (1024 ^ 3 ≤ (n : Rat) → (n : Rat) < 1024 ^ 4 →
        format_size n = fmt2 ((n : Rat) / 1024 ^ 3) ++ " GB") ∧
      (1024 ^ 4 ≤ (n : Rat) → (n : Rat) < 1024 ^ 5 →
        format_size n = fmt2 ((n : Rat) / 1024 ^ 4) ++ " TB") ∧
      (1024 ^ 5 ≤ (n : Rat) → format_size n = fmt2 ((n : Rat) / 1024 ^ 5) ++ " PB") := by
  refine ⟨?_, ?_, ?_, ?_, ?_, format_size_ladder⟩
  · have l := (format_size_ladder 0).1 (by norm_num)
    rw [l, fmt2_cast_eval (((0 : Int) : Rat)) 0 (by norm_num) (by norm_num)]
    decide
  · have l := (format_size_ladder 1023).1 (by norm_num)
    rw [l, fmt2_cast_eval (((1023 : Int) : Rat)) 102300 (by norm_num) (by norm_num)]
    decide
  · have l := (format_size_ladder 1024).2.1 (by norm_num) (by norm_num)
    rw [l, fmt2_cast_eval (((1024 : Int) : Rat) / 1024) 100 (by norm_num) (by norm_num)]
    decide
  · have l := (format_size_ladder 1536).2.1 (by norm_num) (by norm_num)
    rw [l, fmt2_cast_eval (((1536 : Int) : Rat) / 1024) 150 (by norm_num) (by norm_num)]
    decide
  · have l := (format_size_ladder (1024 ^ 4)).2.2.2.2.1 (by norm_num) (by norm_num)
    rw [l, fmt2_cast_eval (((1024 ^ 4 : Int) : Rat) / 1024 ^ 4) 100 (by norm_num)
      (by push_cast; norm_num)]
    decide

/-- C4: in every assembled report, the `has_gps` privacy flag is true if
and only if a GPS report is present and both its latitude and its
longitude decoded to non-null values. -/
theorem C4_has_gps_flag (r : Except Unit (Option (List (Int × RawTagValue))))
    (rep : AnalysisReport) (h : analyze r = Except.ok rep) :
    rep.has_gps = true ↔
      ∃ g, rep.gps = some g ∧ g.latitude.isSome = true ∧ g.longitude.isSome = true := by
  unfold analyze analyzeFrom at h
  split at h
  · rw [Except.ok.injEq] at h
    subst h
    simp
  · split at h
    · exact absurd h (by simp)
    · rw [Except.ok.injEq] at h
      subst h
      rename_i gps heq
      cases gps with
      | none => simp
      | some g =>
        cases hlat : g.latitude <;> cases hlon : g.longitude <;>
          simp [hlat, hlon]

/-- Witness for C4 at an image whose GPSInfo tag is present but whose
coordinate fails to decode: `has_gps` comes out false. -/
theorem C4_has_gps_flag_witness :
    analyze (Except.ok (some
        [((34853 : Int), RawTagValue.vmap
          [(RawTagValue.vint 2, RawTagValue.vseq [RawTagValue.vstr "x"])])])) =
      Except.ok
        { success := true,
          exif := [{ tag := "GPSInfo", value := "\x7b2: [x]\x7d", is_sensitive := true }],
          gps := some { raw := [(RawTagValue.vstr "GPSLatitude",
                          RawTagValue.vseq [RawTagValue.vstr "x"])],
                        latitude := none, longitude := none },
          has_gps := false, has_datetime := false, has_camera_model := false,
          message := "Metadata analyzed successfully." } ∧
    ((AnalysisReport.has_gps
        { success := true,
          exif := [{ tag := "GPSInfo", value := "\x7b2: [x]\x7d", is_sensitive := true }],
          gps := some { raw := [(RawTagValue.vstr "GPSLatitude",
                          RawTagValue.vseq [RawTagValue.vstr "x"])],
                        latitude := none, longitude := none },
          has_gps := false, has_datetime := false, has_camera_model := false,
          message := "Metadata analyzed successfully." } = true) ↔
      ∃ g, (AnalysisReport.gps
        { success := true,
          exif := [{ tag := "GPSInfo", value := "\x7b2: [x]\x7d", is_sensitive := true }],
          gps := some { raw := [(RawTagValue.vstr "GPSLatitude",
                          RawTagValue.vseq [RawTagValue.vstr "x"])],
                        latitude := none, longitude := none },
          has_gps := false, has_datetime := false, has_camera_model := false,
          message := "Metadata analyzed successfully." } = some g ∧
        g.latitude.isSome = true ∧ g.longitude.isSome = true)) := by
  have h1 : get_exif_data
      (Except.ok (some [((34853 : Int), RawTagValue.vmap
        [(RawTagValue.vint 2, RawTagValue.vseq [RawTagValue.vstr "x"])])])) =
      [("GPSInfo", RawTagValue.vmap
        [(RawTagValue.vint 2, RawTagValue.vseq [RawTagValue.vstr "x"])])] := rfl
  have h3 : sanitize_for_json (RawTagValue.vseq [RawTagValue.vstr "x"]) =
      RawTagValue.vseq [RawTagValue.vstr "x"] := by
    simp [sanitize_for_json, sanitizeList]
  have h2 : get_gps_info [("GPSInfo", RawTagValue.vmap
      [(RawTagValue.vint 2, RawTagValue.vseq [RawTagValue.vstr "x"])])] =
      Except.ok (some
        { raw := [(RawTagValue.vstr "GPSLatitude",
            sanitize_for_json (RawTagValue.vseq [RawTagValue.vstr "x"]))],
          latitude := none, longitude := none }) := rfl
  rw [h3] at h2
  have h4 : displayString (RawTagValue.vmap
      [(RawTagValue.vint 2, RawTagValue.vseq [RawTagValue.vstr "x"])]) =
      "\x7b2: [x]\x7d" := by
    simp only [displayString, pyStr, pyStrList, pyStrPairs]
    decide
  have h5 : mkExifEntry "GPSInfo" (RawTagValue.vmap
      [(RawTagValue.vint 2, RawTagValue.vseq [RawTagValue.vstr "x"])]) =
      { tag := "GPSInfo", value := "\x7b2: [x]\x7d", is_sensitive := true } := by
    rw [mkExifEntry, h4]
    decide
  have heval : analyze (Except.ok (some
      [((34853 : Int), RawTagValue.vmap
        [(RawTagValue.vint 2, RawTagValue.vseq [RawTagValue.vstr "x"])])])) =
      Except.ok
        { success := true,
          exif := [{ tag := "GPSInfo", value := "\x7b2: [x]\x7d", is_sensitive := true }],
          gps := some { raw := [(RawTagValue.vstr "GPSLatitude",
                          RawTagValue.vseq [RawTagValue.vstr "x"])],
                        latitude := none, longitude := none },
          has_gps := false, has_datetime := false, has_camera_model := false,
          message := "Metadata analyzed successfully." } := by
    unfold analyze
    rw [h1]
    simp [analyzeFrom, h2, h5, datetimeTags, cameraTags]
  exact ⟨heval, C4_has_gps_flag _ _ heval⟩

/-- Witness for C5 at 2048 bytes (2.00 KB territory). -/
theorem C5_format_size_witness :
    format_size 2048 = fmt2 (((2048 : Int) : Rat) / 1024) ++ " KB" :=
  (C5_format_size.2.2.2.2.2 2048).2.1 (by norm_num) (by norm_num)

/-- General latitude decode: value and sign of `get_gps_info`'s latitude
for a generic (degrees, minutes, seconds) triple and optional ref. -/
theorem gps_lat_general (a b c : RawTagValue) (d m s : Rat) (ref : Option String)
    (h1 : to_float_rational a = some d) (h2 : to_float_rational b = some m)
    (h3 : to_float_rational c = some s) :
    ∃ rep, get_gps_info (gpsExifLat ref (vseq [a, b, c])) = Except.ok (some rep) ∧
      rep.latitude = some (if refFirstUpper ref = some 'S'
        then -(d + m / 60 + s / 3600) else d + m / 60 + s / 3600) ∧
      rep.longitude = none := by
  cases ref with
  | none =>
    refine ⟨_, rfl, ?_, ?_⟩
    · simp [coordOf, rawGet, keyIsStr, resolveGpsTag, GPSTAGS, List.lookup,
        normalizeRef, refMatches, refFirstUpper, convert_to_degrees, h1, h2, h3]
    · simp [coordOf, rawGet, keyIsStr, resolveGpsTag, GPSTAGS, List.lookup]
  | some rs =>
    obtain ⟨data⟩ := rs
    cases data with
    | nil =>
      refine ⟨_, rfl, ?_, ?_⟩
      · simp [coordOf, rawGet, keyIsStr, resolveGpsTag, GPSTAGS, List.lookup,
          normalizeRef, refMatches, refFirstUpper, convert_to_degrees, h1, h2, h3,
          pyTruthy, pyStr, upperStartsWith, String.toList]
      · simp [coordOf, rawGet, keyIsStr, resolveGpsTag, GPSTAGS, List.lookup]
    | cons ch tl =>
      by_cases hch : Char.toUpper ch = 'S'
      · refine ⟨_, rfl, ?_, ?_⟩
        · simp [coordOf, rawGet, keyIsStr, resolveGpsTag, GPSTAGS, List.lookup,
            normalizeRef, refMatches, refFirstUpper, convert_to_degrees, h1, h2, h3,
            pyTruthy, pyStr, upperStartsWith, String.toList, hch]
          intro hemp
          have hd := congrArg String.data hemp
          simp at hd
        · simp [coordOf, rawGet, keyIsStr, resolveGpsTag, GPSTAGS, List.lookup]
      · refine ⟨_, rfl, ?_, ?_⟩
        · simp [coordOf, rawGet, keyIsStr, resolveGpsTag, GPSTAGS, List.lookup,
            normalizeRef, refMatches, refFirstUpper, convert_to_degrees, h1, h2, h3,
            pyTruthy, pyStr, upperStartsWith, String.toList, hch]
        · simp [coordOf, rawGet, keyIsStr, resolveGpsTag, GPSTAGS, List.lookup]


/-- General longitude decode: mirror of the latitude case with the `W`
hemisphere letter. -/
theorem gps_lon_general (a b c : RawTagValue) (d m s : Rat) (ref : Option String)
    (h1 : to_float_rational a = some d) (h2 : to_float_rational b = some m)
    (h3 : to_float_rational c = some s) :
    ∃ rep, get_gps_info (gpsExifLon ref (vseq [a, b, c])) = Except.ok (some rep) ∧
      rep.longitude = some (if refFirstUpper ref = some 'W'
        then -(d + m / 60 + s / 3600) else d + m / 60 + s / 3600) ∧
      rep.latitude = none := by
  cases ref with
  | none =>
    refine ⟨_, rfl, ?_, ?_⟩
    · simp [coordOf, rawGet, keyIsStr, resolveGpsTag, GPSTAGS, List.lookup,
        normalizeRef, refMatches, refFirstUpper, convert_to_degrees, h1, h2, h3]
    · simp [coordOf, rawGet, keyIsStr, resolveGpsTag, GPSTAGS, List.lookup]
  | some rs =>
    obtain ⟨data⟩ := rs
    cases data with
    | nil =>
      refine ⟨_, rfl, ?_, ?_⟩
      · simp [coordOf, rawGet, keyIsStr, resolveGpsTag, GPSTAGS, List.lookup,
          normalizeRef, refMatches, refFirstUpper, convert_to_degrees, h1, h2, h3,
          pyTruthy, pyStr, upperStartsWith, String.toList]
      · simp [coordOf, rawGet, keyIsStr, resolveGpsTag, GPSTAGS, List.lookup]
    | cons ch tl =>
      by_cases hch : Char.toUpper ch = 'W'
      · refine ⟨_, rfl, ?_, ?_⟩
        · simp [coordOf, rawGet, keyIsStr, resolveGpsTag, GPSTAGS, List.lookup,
            normalizeRef, refMatches, refFirstUpper, convert_to_degrees, h1, h2, h3,
            pyTruthy, pyStr, upperStartsWith, String.toList, hch]
          intro hemp
          have hd := congrArg String.data hemp
          simp at hd
        · simp [coordOf, rawGet, keyIsStr, resolveGpsTag, GPSTAGS, List.lookup]
      · refine ⟨_, rfl, ?_, ?_⟩
        · simp [coordOf, rawGet, keyIsStr, resolveGpsTag, GPSTAGS, List.lookup,
            normalizeRef, refMatches, refFirstUpper, convert_to_degrees, h1, h2, h3,
            pyTruthy, pyStr, upperStartsWith, String.toList, hch]
        · simp [coordOf, rawGet, keyIsStr, resolveGpsTag, GPSTAGS, List.lookup]

/-- C2: for every GPS coordinate given as a 3-element (degrees, minutes,
seconds) sequence whose elements convert by rational interpretation, the
decoded coordinate equals `d + m/60 + s/3600`, and the sign is negated
exactly when the corresponding ref value's first character, uppercased,
is `S` (latitude) resp. `W` (longitude); with no ref the sign is
unchanged. In particular (10,30,0) with ref "N" decodes to 10.5 and with
ref "S" to -10.5. -/
theorem C2_gps_decode_and_sign :
    (∀ (a b c : RawTagValue) (d m s : Rat) (ref : Option String),
      to_float_rational a = some d → to_float_rational b = some m →
      to_float_rational c = some s →
      ∃ rep, get_gps_info (gpsExifLat ref (vseq [a, b, c])) = Except.ok (some rep) ∧
        rep.latitude = some (if refFirstUpper ref = some 'S'
          then -(d + m / 60 + s / 3600) else d + m / 60 + s / 3600) ∧
        rep.longitude = none) ∧
    (∀ (a b c : RawTagValue) (d m s : Rat) (ref : Option String),
      to_float_rational a = some d → to_float_rational b = some m →
      to_float_rational c = some s →
      ∃ rep, get_gps_info (gpsExifLon ref (vseq [a, b, c])) = Except.ok (some rep) ∧
        rep.longitude = some (if refFirstUpper ref = some 'W'
          then -(d + m / 60 + s / 3600) else d + m / 60 + s / 3600) ∧
        rep.latitude = none) ∧
    (∃ rep, get_gps_info (gpsExifLat (some "N")
        (vseq [vint 10, vint 30, vint 0])) = Except.ok (some rep) ∧
      rep.latitude = some (21 / 2)) ∧
    (∃ rep, get_gps_info (gpsExifLat (some "S")
        (vseq [vint 10, vint 30, vint 0])) = Except.ok (some rep) ∧
      rep.latitude = some (-(21 / 2))) := by
  have h10 : to_float_rational (vint 10) = some 10 := by
    norm_num [to_float_rational, pyFloat]
  have h30 : to_float_rational (vint 30) = some 30 := by
    norm_num [to_float_rational, pyFloat]
  have h0 : to_float_rational (vint 0) = some 0 := by
    norm_num [to_float_rational, pyFloat]
  refine ⟨gps_lat_general, gps_lon_general, ?_, ?_⟩
  · obtain ⟨rep, hrep, hlat, hlon⟩ :=
      gps_lat_general (vint 10) (vint 30) (vint 0) 10 30 0 (some "N") h10 h30 h0
    refine ⟨rep, hrep, ?_⟩
    rw [hlat, if_neg (by decide)]
    norm_num
  · obtain ⟨rep, hrep, hlat, hlon⟩ :=
      gps_lat_general (vint 10) (vint 30) (vint 0) 10 30 0 (some "S") h10 h30 h0
    refine ⟨rep, hrep, ?_⟩
    rw [hlat, if_pos (by decide)]
    norm_num

/-- Witness for C2: the general statements applied at the triple
(20, 15, 0) with no latitude ref and with longitude ref "w"
(lower case, exercising the uppercasing). -/
theorem C2_gps_decode_and_sign_witness :
    (∃ rep, get_gps_info (gpsExifLat none
        (RawTagValue.vseq [RawTagValue.vint 20, RawTagValue.vint 15, RawTagValue.vint 0])) =
        Except.ok (some rep) ∧
      rep.latitude = some (if refFirstUpper none = some 'S'
        then -(20 + 15 / 60 + 0 / 3600) else 20 + 15 / 60 + 0 / 3600) ∧
      rep.longitude = none) ∧
    (∃ rep, get_gps_info (gpsExifLon (some "w")
        (RawTagValue.vseq [RawTagValue.vint 20, RawTagValue.vint 15, RawTagValue.vint 0])) =
        Except.ok (some rep) ∧
      rep.longitude = some (if refFirstUpper (some "w") = some 'W'
        then -(20 + 15 / 60 + 0 / 3600) else 20 + 15 / 60 + 0 / 3600) ∧
      rep.latitude = none) := by
  have h20 : to_float_rational (RawTagValue.vint 20) = some 20 := by
    norm_num [to_float_rational, pyFloat]
  have h15 : to_float_rational (RawTagValue.vint 15) = some 15 := by
    norm_num [to_float_rational, pyFloat]
  have h0 : to_float_rational (RawTagValue.vint 0) = some 0 := by
    norm_num [to_float_rational, pyFloat]
  exact ⟨C2_gps_decode_and_sign.1 _ _ _ 20 15 0 none h20 h15 h0,
    C2_gps_decode_and_sign.2.1 _ _ _ 20 15 0 (some "w") h20 h15 h0⟩

end MetadataAnalyzer
